import Mathlib

/- Verification of the persistence-and-authentication core of simple-linkz.

   The embedding translates, from the source:
   - src/auth.js   : cookie signer (HMAC-SHA256), session manager;
   - src/storage.js: document store (atomic temp-file-plus-rename writes);
   - the API layer (isAuthenticated, handleLogout, handleResetCredentials).

   JS strings are embedded as `List Char` (the relevant values are ASCII, where
   UTF-8 bytes coincide with code points); machine integers are `Nat` with
   explicit reduction mod 2^32 where SHA-256 needs it; the JS `sessions` object
   is an association list; async storage functions become explicit state
   passing over a filesystem state `Fs`, with I/O failure points injected as an
   explicit parameter, and a thrown exception rendered as `Except.error`.

   SHA-256 and HMAC-SHA256 are implemented in full (FIPS 180-4 / RFC 2104) so
   that the concrete examples of the specification evaluate inside Lean. -/

namespace SimpleLinkz

set_option maxRecDepth 100000

/-- A JavaScript string, embedded as its character list. -/
abbrev JsStr := List Char

/-! ## SHA-256 (FIPS 180-4), as invoked by crypto.createHmac in src/auth.js -/

/-- Truncate to a 32-bit word. -/
def w32 (n : Nat) : Nat := n % 4294967296

/-- Right rotation of a 32-bit word. -/
def rotr (n x : Nat) : Nat := w32 ((x >>> n) ||| (x <<< (32 - n)))

/-- SHA-256 choice function; NOT on 32 bits is XOR with 0xffffffff. -/
def shaCh (x y z : Nat) : Nat := (x &&& y) ^^^ ((x ^^^ 4294967295) &&& z)

/-- SHA-256 majority function. -/
def shaMaj (x y z : Nat) : Nat := (x &&& y) ^^^ (x &&& z) ^^^ (y &&& z)

def bigSigma0 (x : Nat) : Nat := rotr 2 x ^^^ rotr 13 x ^^^ rotr 22 x

def bigSigma1 (x : Nat) : Nat := rotr 6 x ^^^ rotr 11 x ^^^ rotr 25 x

def smallSigma0 (x : Nat) : Nat := rotr 7 x ^^^ rotr 18 x ^^^ (x >>> 3)

def smallSigma1 (x : Nat) : Nat := rotr 17 x ^^^ rotr 19 x ^^^ (x >>> 10)

/-- The 64 SHA-256 round constants K (FIPS 180-4, in decimal). -/
def sha256K : List Nat :=
  [1116352408, 1899447441, 3049323471, 3921009573, 961987163, 1508970993,
   2453635748, 2870763221, 3624381080, 310598401, 607225278, 1426881987,
   1925078388, 2162078206, 2614888103, 3248222580, 3835390401, 4022224774,
   264347078, 604807628, 770255983, 1249150122, 1555081692, 1996064986,
   2554220882, 2821834349, 2952996808, 3210313671, 3336571891, 3584528711,
   113926993, 338241895, 666307205, 773529912, 1294757372, 1396182291,
   1695183700, 1986661051, 2177026350, 2456956037, 2730485921, 2820302411,
   3259730800, 3345764771, 3516065817, 3600352804, 4094571909, 275423344,
   430227734, 506948616, 659060556, 883997877, 958139571, 1322822218,
   1537002063, 1747873779, 1955562222, 2024104815, 2227730452, 2361852424,
   2428436474, 2756734187, 3204031479, 3329325298]

/-- The eight SHA-256 initial hash values (FIPS 180-4, in decimal). -/
def sha256Init : List Nat :=
  [1779033703, 3144134277, 1013904242, 2773480762,
   1359893119, 2600822924, 528734635, 1541459225]

/-- Extend a 16-word block to the 64-word message schedule (n = 48 steps). -/
def extendSchedule : Nat → List Nat → List Nat
  | 0, ws => ws
  | n + 1, ws =>
    let len := ws.length
    let t := w32 (smallSigma1 (ws.getD (len - 2) 0) + ws.getD (len - 7) 0 +
                  smallSigma0 (ws.getD (len - 15) 0) + ws.getD (len - 16) 0)
    extendSchedule n (ws ++ [t])

/-- One SHA-256 round on the eight-word working state. -/
def roundStep (st : List Nat) (kw : Nat × Nat) : List Nat :=
  match st with
  | [a, b, c, d, e, f, g, h] =>
    let t1 := w32 (h + bigSigma1 e + shaCh e f g + kw.1 + kw.2)
    let t2 := w32 (bigSigma0 a + shaMaj a b c)
    [w32 (t1 + t2), a, b, c, w32 (d + t1), e, f, g]
  | st => st

/-- The SHA-256 compression function on one 16-word block. -/
def sha256Compress (h : List Nat) (block : List Nat) : List Nat :=
  let ws := extendSchedule 48 block
  let fin := (sha256K.zip ws).foldl roundStep h
  (h.zip fin).map (fun p => w32 (p.1 + p.2))

/-- SHA-256 padding: append 0x80, zeros to 56 mod 64, and the 64-bit
bit-length, big-endian. -/
def padMessage (msg : List Nat) : List Nat :=
  let len := msg.length
  let zeros := (64 - (len + 9) % 64) % 64
  let bitLen := len * 8
  msg ++ 0x80 :: List.replicate zeros 0 ++
    [bitLen >>> 56 &&& 255, bitLen >>> 48 &&& 255, bitLen >>> 40 &&& 255, bitLen >>> 32 &&& 255,
     bitLen >>> 24 &&& 255, bitLen >>> 16 &&& 255, bitLen >>> 8 &&& 255, bitLen &&& 255]

/-- Group bytes into big-endian 32-bit words. -/
def bytesToWords : List Nat → List Nat
  | b0 :: b1 :: b2 :: b3 :: rest => (((b0 * 256 + b1) * 256 + b2) * 256 + b3) :: bytesToWords rest
  | _ => []

/-- Cut a padded byte list into 16-word blocks; the fuel (instantiated with the
list length, an upper bound on the block count) keeps the recursion
structural so the kernel can evaluate it. -/
def toBlocksAux : Nat → List Nat → List (List Nat)
  | 0, _ => []
  | _ + 1, [] => []
  | fuel + 1, l => bytesToWords (l.take 64) :: toBlocksAux fuel (l.drop 64)

/-- Big-endian bytes of a 32-bit word. -/
def wordToBytes (w : Nat) : List Nat :=
  [w >>> 24 &&& 255, w >>> 16 &&& 255, w >>> 8 &&& 255, w &&& 255]

/-- SHA-256 of a byte list, as a 32-byte list. -/
def sha256 (msg : List Nat) : List Nat :=
  let padded := padMessage msg
  let hs := (toBlocksAux padded.length padded).foldl sha256Compress sha256Init
  hs.foldr (fun w acc => wordToBytes w ++ acc) []

/-- HMAC-SHA256 (RFC 2104): block size 64, opad 0x5c, ipad 0x36. -/
def hmacSha256 (key msg : List Nat) : List Nat :=
  let key0 := if 64 < key.length then sha256 key else key
  let keyPad := key0 ++ List.replicate (64 - key0.length) 0
  sha256 ((keyPad.map (fun b => b ^^^ 0x5c)) ++ sha256 ((keyPad.map (fun b => b ^^^ 0x36)) ++ msg))

/-- The lowercase hex alphabet used by Buffer.toString('hex'). -/
def hexDigits : List Char := "0123456789abcdef".toList

/-- Hex digit of the low nibble of n. -/
def hexChar (n : Nat) : Char := hexDigits.getD (n % 16) '0'

/-- digest('hex'): two lowercase hex digits per byte. -/
def bytesToHex : List Nat → List Char
  | [] => []
  | b :: rest => hexChar (b / 16) :: hexChar b :: bytesToHex rest

/-- Byte encoding of a JS string as fed to HMAC. Every value this system
signs (hex session tokens, hex secrets) is ASCII, where the UTF-8 bytes used
by crypto.update are exactly the code points. -/
def strBytes (s : JsStr) : List Nat := s.map Char.toNat

/-! ## src/auth.js: cookie signer and session manager -/

/-- JS String.prototype.split at a separator character: splits at every
occurrence, and an empty string yields one empty part. -/
def jsSplit (sep : Char) : List Char → List (List Char)
  | [] => [[]]
  | c :: rest =>
    match jsSplit sep rest with
    | [] => [[]]
    | p :: ps => if c = sep then [] :: p :: ps else (c :: p) :: ps

/-- signCookie (src/auth.js:31): value "." hex(HMAC-SHA256(secret, value)). -/
def signCookie (value secret : JsStr) : JsStr :=
  value ++ '.' :: bytesToHex (hmacSha256 (strBytes secret) (strBytes value))

/-- verifyCookie (src/auth.js:42): rejects a falsy (empty) input, splits on
every '.', requires exactly two parts, recomputes the HMAC over the first part
and compares it with the second by string equality; returns the first part on
a match and null (none) otherwise. -/
def verifyCookie (signedValue secret : JsStr) : Option JsStr :=
  if signedValue = [] then none
  else
    match jsSplit '.' signedValue with
    | [value, signature] =>
      if signature = bytesToHex (hmacSha256 (strBytes secret) (strBytes value))
      then some value else none
    | _ => none

/-- SESSION_DURATION (src/auth.js:5): 7 * 24 * 60 * 60 * 1000 ms. -/
def SESSION_DURATION : Nat := 604800000

/-- A session record: { createdAt, expiresAt } in epoch milliseconds. -/
structure Session where
  createdAt : Nat
  expiresAt : Nat
deriving DecidableEq

/-- createSession (src/auth.js:68); the random token and Date.now() are
parameters of the embedding. -/
def createSession (token : JsStr) (now : Nat) : JsStr × Session :=
  (token, { createdAt := now, expiresAt := now + SESSION_DURATION })

/-- isSessionValid (src/auth.js:83): false for a missing session or a falsy
(zero) expiresAt, else Date.now() < expiresAt, strictly. -/
def isSessionValid (now : Nat) : Option Session → Bool
  | none => false
  | some s => if s.expiresAt = 0 then false else decide (now < s.expiresAt)

/-! ## src/storage.js: the document store -/

/-- The preferences object of DEFAULT_DATA, opaque to the core beyond its
shape. -/
structure Preferences where
  layout : JsStr
  theme : JsStr
  accentColor : JsStr
  backgroundColor : JsStr
  pageTitle : JsStr
deriving DecidableEq

/-- A stored link; opaque payload data for this core. -/
structure Link where
  id : JsStr
  name : JsStr
  url : JsStr
  order : Nat
deriving DecidableEq

/-- The user record: { username, passwordHash }. -/
structure User where
  username : JsStr
  passwordHash : JsStr
deriving DecidableEq

/-- The single persisted JSON document of data.json. sessionSecret is the
value every reachable stored document carries (initializeData sets it before
the first write). The sessions object is an association list keyed by token. -/
structure Document where
  sessionSecret : JsStr
  user : Option User
  preferences : Preferences
  links : List Link
  sessions : List (JsStr × Session)
deriving DecidableEq

/-- DEFAULT_DATA.preferences (src/storage.js:12). -/
def defaultPreferences : Preferences :=
  { layout := "grid".toList
    theme := "dark".toList
    accentColor := "blue".toList
    backgroundColor := "gray".toList
    pageTitle := "Simple Linkz".toList }

/-- The document initializeData writes when no data file exists: DEFAULT_DATA
with a freshly generated sessionSecret (src/storage.js:35). -/
def defaultData (freshSecret : JsStr) : Document :=
  { sessionSecret := freshSecret
    user := none
    preferences := defaultPreferences
    links := []
    sessions := [] }

/-- The storage error taxonomy: any fs read/parse/write rejection. -/
inductive StorageError
  | ioFailure
deriving DecidableEq

/-- Contents of a file on disk. `torn d cut` stands for a strict prefix (cut
bytes) of the serialization of d, as left by an interrupted fs.writeFile; a
strict prefix of the brace-balanced JSON.stringify output never parses. -/
inductive FileContent
  | missing
  | whole (d : Document)
  | torn (d : Document) (cut : Nat)
deriving DecidableEq

/-- Filesystem state: the canonical data.json and the data.json.tmp staging
file used by writeData. -/
structure Fs where
  dataFile : FileContent
  tempFile : FileContent
deriving DecidableEq

/-- Injected I/O failure point for one writeData call: the temp-file write is
interrupted after cut bytes, the rename fails, or everything succeeds. -/
inductive WriteInj
  | tempFail (cut : Nat)
  | renameFail
  | success
deriving DecidableEq

/-- readData (src/storage.js:44): read and parse the canonical file; a missing
or torn file rejects. -/
def readData (fs : Fs) : Except StorageError Document :=
  match fs.dataFile with
  | FileContent.whole d => Except.ok d
  | _ => Except.error StorageError.ioFailure

/-- writeData (src/storage.js:57): serialize to data.json.tmp, then rename
onto data.json. The rename is the atomic commit point: an interrupted temp
write or a failed rename rejects and leaves the canonical file untouched;
success installs the whole new document and consumes the temp file. -/
def writeData (d : Document) (inj : WriteInj) (fs : Fs) :
    Except StorageError Unit × Fs :=
  match inj with
  | WriteInj.tempFail cut =>
    (Except.error StorageError.ioFailure, { fs with tempFile := FileContent.torn d cut })
  | WriteInj.renameFail =>
    (Except.error StorageError.ioFailure, { fs with tempFile := FileContent.whole d })
  | WriteInj.success =>
    (Except.ok (), { dataFile := FileContent.whole d, tempFile := FileContent.missing })

/-- initializeData (src/storage.js:26): if the data file exists (fs.access
succeeds — the existing document also guarantees the data directory exists, so
mkdir succeeds) nothing happens; otherwise DEFAULT_DATA with a fresh secret is
written. The fresh random secret is a parameter of the embedding. -/
def initializeData (freshSecret : JsStr) (inj : WriteInj) (fs : Fs) :
    Except StorageError Unit × Fs :=
  match fs.dataFile with
  | FileContent.missing => writeData (defaultData freshSecret) inj fs
  | _ => (Except.ok (), fs)

/-- getSessionSecret (src/storage.js:126): readData, project sessionSecret; a
pure read, so the filesystem state passes through unchanged. -/
def getSessionSecret (fs : Fs) : Except StorageError JsStr × Fs :=
  ((readData fs).map (fun d => d.sessionSecret), fs)

/-- getSessions (src/storage.js:134): readData, project sessions. -/
def getSessions (fs : Fs) : Except StorageError (List (JsStr × Session)) × Fs :=
  ((readData fs).map (fun d => d.sessions), fs)

/-- saveSessions (src/storage.js:142): read the whole document, replace its
sessions field, write the whole document back. -/
def saveSessions (tbl : List (JsStr × Session)) (inj : WriteInj) (fs : Fs) :
    Except StorageError Unit × Fs :=
  match readData fs with
  | Except.error e => (Except.error e, fs)
  | Except.ok d => writeData { d with sessions := tbl } inj fs

/-- setUser(null, null) (src/storage.js:79) as invoked by
handleResetCredentials: read the document, clear the user field, write back. -/
def setUserNull (inj : WriteInj) (fs : Fs) : Except StorageError Unit × Fs :=
  match readData fs with
  | Except.error e => (Except.error e, fs)
  | Except.ok d => writeData { d with user := none } inj fs

/-! ## API layer: auth gate and handlers -/

/-- Lookup in the JS sessions object: sessions[token]. -/
def tableLookup (tbl : List (JsStr × Session)) (k : JsStr) : Option Session :=
  match tbl with
  | [] => none
  | p :: rest => if p.1 = k then some p.2 else tableLookup rest k

/-- JS delete sessions[token]: remove the key from the object. -/
def tableDelete (tbl : List (JsStr × Session)) (k : JsStr) :
    List (JsStr × Session) :=
  match tbl with
  | [] => []
  | p :: rest => if p.1 = k then tableDelete rest k else p :: tableDelete rest k

/-- isAuthenticated (API layer, lines 317-336). The extracted session cookie
is the parameter (none: header absent; some []: present but empty, falsy in
JS). Each storage read threads the filesystem state; the function body has no
try/catch, so a storage rejection propagates as Except.error. An empty string
returned by verifyCookie is falsy, hence the token-emptiness guard. -/
def isAuthenticated (cookie : Option JsStr) (now : Nat) (fs : Fs) :
    Except StorageError Bool × Fs :=
  match cookie with
  | none => (Except.ok false, fs)
  | some c =>
    if c = [] then (Except.ok false, fs)
    else
      match getSessionSecret fs with
      | (Except.error e, fs1) => (Except.error e, fs1)
      | (Except.ok secret, fs1) =>
        match verifyCookie c secret with
        | none => (Except.ok false, fs1)
        | some token =>
          if token = [] then (Except.ok false, fs1)
          else
            match getSessions fs1 with
            | (Except.error e, fs2) => (Except.error e, fs2)
            | (Except.ok sessions, fs2) =>
              (Except.ok (isSessionValid now (tableLookup sessions token)), fs2)

/-- The observable shape of a handler response: HTTP status, and whether the
clearing Set-Cookie header was sent. -/
structure ApiResponse where
  status : Nat
  clearsCookie : Bool
deriving DecidableEq

/-- handleLogout (API layer, lines 449-476): if a non-empty session cookie
verifies, delete its token from the session table and persist; reply 200 with
the clearing Set-Cookie header; any storage rejection is caught and turned
into a 500 response. -/
def handleLogout (cookie : Option JsStr) (inj : WriteInj) (fs : Fs) :
    ApiResponse × Fs :=
  match cookie with
  | none => ({ status := 200, clearsCookie := true }, fs)
  | some c =>
    if c = [] then ({ status := 200, clearsCookie := true }, fs)
    else
      match getSessionSecret fs with
      | (Except.error _, fs1) => ({ status := 500, clearsCookie := false }, fs1)
      | (Except.ok secret, fs1) =>
        match verifyCookie c secret with
        | none => ({ status := 200, clearsCookie := true }, fs1)
        | some token =>
          if token = [] then ({ status := 200, clearsCookie := true }, fs1)
          else
            match getSessions fs1 with
            | (Except.error _, fs2) => ({ status := 500, clearsCookie := false }, fs2)
            | (Except.ok sessions, fs2) =>
              match saveSessions (tableDelete sessions token) inj fs2 with
              | (Except.error _, fs3) => ({ status := 500, clearsCookie := false }, fs3)
              | (Except.ok _, fs3) => ({ status := 200, clearsCookie := true }, fs3)

/-- handleResetCredentials (API layer, lines 481-502): the isAuthenticated
call sits OUTSIDE the try/catch, so a storage rejection raised there
propagates out of the handler (Except.error); inside the try, the two
independent writes are caught and mapped to 500. -/
def handleResetCredentials (cookie : Option JsStr) (now : Nat)
    (inj1 inj2 : WriteInj) (fs : Fs) : Except StorageError ApiResponse × Fs :=
  match isAuthenticated cookie now fs with
  | (Except.error e, fs1) => (Except.error e, fs1)
  | (Except.ok false, fs1) => (Except.ok { status := 401, clearsCookie := false }, fs1)
  | (Except.ok true, fs1) =>
    match setUserNull inj1 fs1 with
    | (Except.error _, fs2) => (Except.ok { status := 500, clearsCookie := false }, fs2)
    | (Except.ok _, fs2) =>
      match saveSessions [] inj2 fs2 with
      | (Except.error _, fs3) => (Except.ok { status := 500, clearsCookie := false }, fs3)
      | (Except.ok _, fs3) => (Except.ok { status := 200, clearsCookie := true }, fs3)

/-! ## Cost model for the signature comparison (src/auth.js:58) -/

/-- Per-character cost of the short-circuit string equality behind the JS
comparison signature !== expectedSignature: characters are compared left to
right and the scan stops at the first mismatch or at the end of either string.
The value counts the character comparisons performed. -/
def strEqCost : List Char → List Char → Nat
  | a :: as, b :: bs => 1 + (if a = b then strEqCost as bs else 0)
  | _, _ => 0

/-- A character differing from its argument; used to forge a signature digit. -/
def flipChar (c : Char) : Char := if c = 'x' then 'y' else 'x'

/-- The correct signature of "tok123" under "secretA". -/
def expectedSigTok123 : JsStr :=
  bytesToHex (hmacSha256 (strBytes "secretA".toList) (strBytes "tok123".toList))

/-- A forged signature agreeing with the correct one on all 63 leading hex
digits and differing in the last. -/
def sigForgedAtEnd : JsStr :=
  expectedSigTok123.take 63 ++ [flipChar (expectedSigTok123.getD 63 'x')]

/-- A forged signature differing from the correct one already in its first
hex digit. -/
def sigForgedAtStart : JsStr :=
  flipChar (expectedSigTok123.getD 0 'x') :: expectedSigTok123.drop 1

/-! ## Concrete specimens used by witnesses -/

/-- A one-character session token. -/
def demoToken : JsStr := ['t']

/-- A one-character signing secret. -/
def demoSecret : JsStr := ['k']

/-- A session created at epoch 0. -/
def demoSession : Session := { createdAt := 0, expiresAt := 604800000 }

/-- A stored document with one live session. -/
def demoDoc : Document :=
  { sessionSecret := demoSecret
    user := none
    preferences := defaultPreferences
    links := []
    sessions := [(demoToken, demoSession)] }

/-- A healthy filesystem: demoDoc on disk, no temp file. -/
def demoFs : Fs := { dataFile := FileContent.whole demoDoc, tempFile := FileContent.missing }

/-- A filesystem whose data file is unreadable: storage reads reject. -/
def brokenFs : Fs := { dataFile := FileContent.missing, tempFile := FileContent.missing }

/-- Occurrences of a character in a string; drives the part count of jsSplit. -/
def countChar (sep : Char) : List Char → Nat
  | [] => 0
  | c :: rest => (if c = sep then 1 else 0) + countChar sep rest

/-! ## Helper lemmas about jsSplit, hex output and the session table -/

theorem jsSplit_ne_nil (sep : Char) (l : List Char) : jsSplit sep l ≠ [] := by
  induction l with
  | nil => simp [jsSplit]
  | cons c rest ih =>
    simp only [jsSplit]
    cases h : jsSplit sep rest with
    | nil => simp
    | cons p ps => by_cases hc : c = sep <;> simp [hc]

theorem jsSplit_no_sep (sep : Char) (w : List Char) (h : sep ∉ w) :
    jsSplit sep w = [w] := by
  induction w with
  | nil => rfl
  | cons c rest ih =>
    simp only [List.mem_cons, not_or] at h
    have hc : ¬(c = sep) := fun hc => h.1 hc.symm
    simp [jsSplit, ih h.2, hc]

theorem jsSplit_sep_append (sep : Char) (v w : List Char) (h : sep ∉ v) :
    jsSplit sep (v ++ sep :: w) = v :: jsSplit sep w := by
  induction v with
  | nil =>
    simp only [List.nil_append, jsSplit]
    cases hw : jsSplit sep w with
    | nil => exact absurd hw (jsSplit_ne_nil sep w)
    | cons p ps => simp
  | cons c rest ih =>
    simp only [List.mem_cons, not_or] at h
    have hc : ¬(c = sep) := fun hc => h.1 hc.symm
    rw [List.cons_append]
    simp only [jsSplit]
    rw [ih h.2]
    simp [hc]

theorem countChar_append (sep : Char) (a b : List Char) :
    countChar sep (a ++ b) = countChar sep a + countChar sep b := by
  induction a with
  | nil => simp [countChar]
  | cons c rest ih => simp [countChar, ih]; omega

theorem countChar_pos (sep : Char) (v : List Char) (h : sep ∈ v) :
    1 ≤ countChar sep v := by
  induction v with
  | nil => cases h
  | cons c rest ih =>
    by_cases hc : c = sep
    · simp [countChar, hc]
    · rcases List.mem_cons.mp h with h1 | h2
      · exact absurd h1.symm hc
      · have := ih h2
        simp [countChar, hc]
        omega

theorem jsSplit_length (sep : Char) (l : List Char) :
    (jsSplit sep l).length = countChar sep l + 1 := by
  induction l with
  | nil => rfl
  | cons c rest ih =>
    simp only [jsSplit]
    cases hr : jsSplit sep rest with
    | nil => exact absurd hr (jsSplit_ne_nil sep rest)
    | cons p ps =>
      rw [hr] at ih
      by_cases hc : c = sep <;> simp [hc, countChar] at ih ⊢ <;> omega

theorem hexChar_ne_dot (n : Nat) : hexChar n ≠ '.' := by
  have h : n % 16 < 16 := Nat.mod_lt _ (by omega)
  have hall : ∀ m, m < 16 → hexDigits.getD m '0' ≠ '.' := by decide
  exact hall (n % 16) h

theorem bytesToHex_no_dot (bs : List Nat) : '.' ∉ bytesToHex bs := by
  induction bs with
  | nil => simp [bytesToHex]
  | cons b rest ih =>
    intro hmem
    rcases List.mem_cons.mp hmem with h1 | hmem2
    · exact hexChar_ne_dot _ h1.symm
    rcases List.mem_cons.mp hmem2 with h2 | h3
    · exact hexChar_ne_dot _ h2.symm
    · exact ih h3

theorem verifyCookie_none_of_parts (sv s : JsStr)
    (h : (jsSplit '.' sv).length ≠ 2) : verifyCookie sv s = none := by
  unfold verifyCookie
  by_cases hsv : sv = []
  · simp [hsv]
  · rw [if_neg hsv]
    cases hp : jsSplit '.' sv with
    | nil => rfl
    | cons p ps =>
      cases ps with
      | nil => rfl
      | cons q qs =>
        cases qs with
        | nil => rw [hp] at h; simp at h
        | cons r rs => rfl

theorem verifyCookie_signCookie (v s : JsStr) (h : '.' ∉ v) :
    verifyCookie (signCookie v s) s = some v := by
  unfold verifyCookie signCookie
  have hne : v ++ '.' :: bytesToHex (hmacSha256 (strBytes s) (strBytes v)) ≠ [] := by
    cases v <;> simp
  rw [if_neg hne]
  rw [jsSplit_sep_append '.' v _ h, jsSplit_no_sep '.' _ (bytesToHex_no_dot _)]
  simp

theorem tableLookup_tableDelete_self (tbl : List (JsStr × Session)) (k : JsStr) :
    tableLookup (tableDelete tbl k) k = none := by
  induction tbl with
  | nil => rfl
  | cons p rest ih =>
    unfold tableDelete
    by_cases hp : p.1 = k
    · simpa [hp] using ih
    · simpa [hp, tableLookup] using ih

theorem isAuthenticated_eval_ok (c : JsStr) (now : Nat) (fs : Fs) (d : Document)
    (hd : readData fs = Except.ok d) (hc : c ≠ []) :
    isAuthenticated (some c) now fs =
      (Except.ok (match verifyCookie c d.sessionSecret with
        | none => false
        | some token =>
          if token = [] then false
          else isSessionValid now (tableLookup d.sessions token)), fs) := by
  simp only [isAuthenticated, getSessionSecret, getSessions, hd, Except.map,
    if_neg hc]
  cases verifyCookie c d.sessionSecret with
  | none => rfl
  | some token =>
    by_cases ht : token = []
    · simp [ht]
    · simp [ht]

theorem isAuthenticated_eval_error (c : JsStr) (now : Nat) (fs : Fs)
    (e : StorageError) (he : readData fs = Except.error e) (hc : c ≠ []) :
    isAuthenticated (some c) now fs = (Except.error e, fs) := by
  simp only [isAuthenticated, getSessionSecret, he, Except.map, if_neg hc]

theorem isAuthenticated_snd (cookie : Option JsStr) (now : Nat) (fs : Fs) :
    (isAuthenticated cookie now fs).2 = fs := by
  cases cookie with
  | none => rfl
  | some c =>
    by_cases hc : c = []
    · simp [isAuthenticated, hc]
    · cases hr : readData fs with
      | error e => rw [isAuthenticated_eval_error c now fs e hr hc]
      | ok d => rw [isAuthenticated_eval_ok c now fs d hr hc]

/-! ## Claims -/

/-- C2: writeData is atomic under failure injection: a write that rejects at
any I/O failure point leaves the canonical file, and hence the readable
document, exactly as before; a successful write installs exactly the new
document; in every case a reader observes the fully-old or the fully-new
document, never a blend. -/
theorem writeData_atomic (d : Document) (inj : WriteInj) (fs : Fs) :
    ((writeData d inj fs).1 = Except.ok () →
        readData (writeData d inj fs).2 = Except.ok d)
  ∧ (∀ e, (writeData d inj fs).1 = Except.error e →
        (writeData d inj fs).2.dataFile = fs.dataFile ∧
        readData (writeData d inj fs).2 = readData fs)
  ∧ (readData (writeData d inj fs).2 = readData fs ∨
        readData (writeData d inj fs).2 = Except.ok d) := by
  cases inj <;> simp [writeData, readData]

/-- C2 witness: a concrete interrupted write leaves demoFs readable as
before. -/
theorem writeData_atomic_witness :
    (writeData demoDoc (WriteInj.tempFail 3) demoFs).1 =
        Except.error StorageError.ioFailure
  ∧ readData (writeData demoDoc (WriteInj.tempFail 3) demoFs).2 = readData demoFs :=
  ⟨rfl, ((writeData_atomic demoDoc (WriteInj.tempFail 3) demoFs).2.1
      StorageError.ioFailure rfl).2⟩

/-- C5: createSession stamps expiresAt = createdAt + 604800000 ms (seven
days), and isSessionValid holds exactly when the check time is strictly below
expiresAt: valid at T + 7d - 1ms, invalid at exactly T + 7d. -/
theorem session_expiry_boundary (tok : JsStr) (T now : Nat) :
    (createSession tok T).2.createdAt = T
  ∧ (createSession tok T).2.expiresAt = T + 604800000
  ∧ (isSessionValid now (some (createSession tok T).2) = true ↔ now < T + 604800000)
  ∧ isSessionValid (T + 604799999) (some (createSession tok T).2) = true
  ∧ isSessionValid (T + 604800000) (some (createSession tok T).2) = false := by
  have hz : ¬(T + SESSION_DURATION = 0) := by simp [SESSION_DURATION]
  refine ⟨rfl, rfl, ?_, ?_, ?_⟩
  · simp [isSessionValid, createSession, hz, SESSION_DURATION]
  · simp [isSessionValid, createSession, hz, SESSION_DURATION]
  · simp [isSessionValid, createSession, hz, SESSION_DURATION]

/-- C6: initializeData is idempotent: when a document is already stored it is
returned untouched — the call succeeds, the filesystem is unchanged, and the
stored document (secret and user included) still reads back identically. -/
theorem initializeData_idempotent (fs : Fs) (d : Document) (sec : JsStr)
    (inj : WriteInj) (h : fs.dataFile = FileContent.whole d) :
    initializeData sec inj fs = (Except.ok (), fs)
  ∧ readData (initializeData sec inj fs).2 = Except.ok d := by
  have h1 : initializeData sec inj fs = (Except.ok (), fs) := by
    unfold initializeData
    rw [h]
  exact ⟨h1, by rw [h1]; simp [readData, h]⟩

/-- C6 witness: re-initializing over demoDoc changes nothing. -/
theorem initializeData_idempotent_witness :
    demoFs.dataFile = FileContent.whole demoDoc
  ∧ initializeData demoSecret WriteInj.success demoFs = (Except.ok (), demoFs) :=
  ⟨rfl, (initializeData_idempotent demoFs demoDoc demoSecret WriteInj.success rfl).1⟩

/-- C9: isAuthenticated is a pure read: for every request cookie and
filesystem state it passes the state through unchanged — in particular an
expired session entry it encounters stays in the stored session table. -/
theorem isAuthenticated_pure_read (cookie : Option JsStr) (now : Nat) (fs : Fs) :
    (isAuthenticated cookie now fs).2 = fs
  ∧ readData (isAuthenticated cookie now fs).2 = readData fs :=
  ⟨isAuthenticated_snd cookie now fs, by rw [isAuthenticated_snd]⟩

/-- C10: the sign/verify round trip fails for every value containing the
separator: signCookie embeds the value unescaped, so the signed string splits
into at least three parts and verifyCookie rejects it. -/
theorem roundTrip_fails_on_dotted_value (v s : JsStr) (h : '.' ∈ v) :
    verifyCookie (signCookie v s) s = none := by
  apply verifyCookie_none_of_parts
  rw [jsSplit_length]
  unfold signCookie
  rw [countChar_append]
  have h1 := countChar_pos '.' v h
  simp [countChar]
  omega

/-- C10 witness: the concrete dotted value "a.b" fails its round trip. -/
theorem roundTrip_fails_on_dotted_value_witness :
    '.' ∈ "a.b".toList
  ∧ verifyCookie (signCookie "a.b".toList demoSecret) demoSecret = none :=
  ⟨by decide, roundTrip_fails_on_dotted_value "a.b".toList demoSecret (by decide)⟩

/-- C4 counterexample: the claim says any input without exactly two non-empty
parts returns null, but verifyCookie only checks the part count: the input
"." followed by the correct HMAC of the empty string has an empty first part
yet is accepted, returning the empty value rather than null. -/
theorem verifyCookie_empty_value_accepted :
    verifyCookie ('.' :: bytesToHex (hmacSha256 (strBytes demoSecret) (strBytes [])))
        demoSecret = some []
  ∧ verifyCookie ('.' :: bytesToHex (hmacSha256 (strBytes demoSecret) (strBytes [])))
        demoSecret ≠ none := by
  have h : verifyCookie
      ('.' :: bytesToHex (hmacSha256 (strBytes demoSecret) (strBytes [])))
      demoSecret = some [] := verifyCookie_signCookie [] demoSecret (by decide)
  exact ⟨h, by rw [h]; simp⟩

/-- C4 amended: verifyCookie splits on every '.' and fails closed with null
whenever the result is not exactly two parts; with exactly two parts — which
may be empty — it returns the extracted value on an HMAC match and null on a
mismatch. -/
theorem verifyCookie_format_amended (sv s : JsStr) :
    ((jsSplit '.' sv).length ≠ 2 → verifyCookie sv s = none)
  ∧ (∀ v sig, jsSplit '.' sv = [v, sig] →
      verifyCookie sv s =
        if sig = bytesToHex (hmacSha256 (strBytes s) (strBytes v))
        then some v else none) := by
  constructor
  · exact verifyCookie_none_of_parts sv s
  · intro v sig hp
    have hsv : sv ≠ [] := by
      intro h0
      rw [h0] at hp
      simp [jsSplit] at hp
    unfold verifyCookie
    rw [if_neg hsv, hp]

/-- C4 witness: a one-part input is rejected through the amended theorem. -/
theorem verifyCookie_format_amended_witness :
    (jsSplit '.' "abc".toList).length ≠ 2
  ∧ verifyCookie "abc".toList demoSecret = none :=
  ⟨by decide, (verifyCookie_format_amended "abc".toList demoSecret).1 (by decide)⟩

/-- C3: signCookie returns value "." hex(HMAC-SHA256(secret, value)); the
specified round trip succeeds under the signing secret, fails under a
different secret, and an unsigned value is rejected. -/
theorem cookie_signature_integrity :
    (∀ v s : JsStr, signCookie v s =
        v ++ '.' :: bytesToHex (hmacSha256 (strBytes s) (strBytes v)))
  ∧ verifyCookie (signCookie "tok123".toList "secretA".toList) "secretA".toList
      = some "tok123".toList
  ∧ verifyCookie (signCookie "tok123".toList "secretA".toList) "secretB".toList
      = none
  ∧ verifyCookie "tok123".toList "secretA".toList = none := by
  refine ⟨fun v s => rfl, ?_, ?_, ?_⟩
  · exact verifyCookie_signCookie _ _ (by decide)
  · decide
  · decide

/-- C1 counterexample: with the data file unreadable, isAuthenticated on a
present cookie propagates the storage error instead of returning the
unauthenticated (false) verdict — it is not the total fail-closed function the
claim describes. -/
theorem isAuthenticated_not_total_on_storage_failure :
    (isAuthenticated (some ['x']) 0 brokenFs).1 = Except.error StorageError.ioFailure
  ∧ (isAuthenticated (some ['x']) 0 brokenFs).1 ≠ Except.ok false := by
  constructor
  · rfl
  · intro hcontra
    rw [show (isAuthenticated (some ['x']) 0 brokenFs).1
        = Except.error StorageError.ioFailure from rfl] at hcontra
    exact Except.noConfusion hcontra

/-- C1 amended: when every storage read succeeds, isAuthenticated returns a
boolean verdict for every request, and each expected not-authenticated outcome
— missing or empty cookie, failed cookie verification, an empty extracted
token, a token absent from the session table, or an invalid (expired) session
— yields exactly the false verdict; a storage read failure propagates as the
StorageError exception (or yields false when no cookie is present) rather than
a verdict — but the check is never skipped: under a failed storage read
handleResetCredentials never answers 200, so the internal error never grants
access. -/
theorem isAuthenticated_fail_closed_amended (cookie : Option JsStr) (now : Nat)
    (fs : Fs) :
    ((∃ d, readData fs = Except.ok d) →
        ∃ b, (isAuthenticated cookie now fs).1 = Except.ok b)
  ∧ (∀ d, readData fs = Except.ok d →
      ((cookie = none ∨ cookie = some []) →
          (isAuthenticated cookie now fs).1 = Except.ok false)
    ∧ (∀ c, cookie = some c → c ≠ [] →
        (verifyCookie c d.sessionSecret = none →
            (isAuthenticated cookie now fs).1 = Except.ok false)
      ∧ (∀ token, verifyCookie c d.sessionSecret = some token →
          (token = [] →
              (isAuthenticated cookie now fs).1 = Except.ok false)
        ∧ (tableLookup d.sessions token = none →
              (isAuthenticated cookie now fs).1 = Except.ok false)
        ∧ (∀ s, tableLookup d.sessions token = some s →
              isSessionValid now (some s) = false →
              (isAuthenticated cookie now fs).1 = Except.ok false))))
  ∧ (∀ e, readData fs = Except.error e →
        (isAuthenticated cookie now fs).1 = Except.ok false ∨
        (isAuthenticated cookie now fs).1 = Except.error e)
  ∧ (∀ e, readData fs = Except.error e → ∀ i1 i2,
        (handleResetCredentials cookie now i1 i2 fs).1 ≠
          Except.ok { status := 200, clearsCookie := true }) := by
  have herr : ∀ e, readData fs = Except.error e →
      (isAuthenticated cookie now fs).1 = Except.ok false ∨
      (isAuthenticated cookie now fs).1 = Except.error e := by
    intro e he
    cases cookie with
    | none => exact Or.inl rfl
    | some c =>
      by_cases hc : c = []
      · subst hc
        exact Or.inl rfl
      · right
        rw [isAuthenticated_eval_error c now fs e he hc]
  refine ⟨?_, ?_, herr, ?_⟩
  · rintro ⟨d, hd⟩
    cases cookie with
    | none => exact ⟨false, rfl⟩
    | some c =>
      by_cases hc : c = []
      · subst hc
        exact ⟨false, rfl⟩
      · rw [isAuthenticated_eval_ok c now fs d hd hc]
        exact ⟨_, rfl⟩
  · intro d hd
    constructor
    · intro hcase
      rcases hcase with rfl | rfl
      · rfl
      · rfl
    · rintro c rfl hc
      rw [isAuthenticated_eval_ok c now fs d hd hc]
      constructor
      · intro hv
        simp [hv]
      · intro token hv
        refine ⟨?_, ?_, ?_⟩
        · intro ht
          simp [hv, ht]
        · intro hl
          by_cases ht : token = []
          · simp [hv, ht]
          · simp [hv, ht, hl, isSessionValid]
        · intro s hl hsess
          by_cases ht : token = []
          · simp [hv, ht]
          · simp [hv, ht, hl, hsess]
  · intro e he i1 i2
    have hpair := Prod.mk.eta (p := isAuthenticated cookie now fs)
    rw [isAuthenticated_snd cookie now fs] at hpair
    rcases herr e he with h1 | h1
    · have hfull : isAuthenticated cookie now fs = (Except.ok false, fs) := by
        rw [← hpair, h1]
      simp [handleResetCredentials, hfull]
    · have hfull : isAuthenticated cookie now fs = (Except.error e, fs) := by
        rw [← hpair, h1]
      simp [handleResetCredentials, hfull]

/-- C1 witness: on the healthy demo store the gate returns a verdict, and each
expected not-authenticated outcome concretely yields false — missing cookie,
unverifiable cookie, a signed token unknown to the table, and the demo session
checked at its exact expiry instant; on a broken store the reset handler does
not answer 200. -/
theorem isAuthenticated_fail_closed_amended_witness :
    ((∃ d, readData demoFs = Except.ok d)
      ∧ ∃ b, (isAuthenticated (some demoToken) 0 demoFs).1 = Except.ok b)
  ∧ (isAuthenticated none 0 demoFs).1 = Except.ok false
  ∧ (verifyCookie ['x'] demoDoc.sessionSecret = none
      ∧ (isAuthenticated (some ['x']) 0 demoFs).1 = Except.ok false)
  ∧ (verifyCookie (signCookie ['u'] demoSecret) demoDoc.sessionSecret = some ['u']
      ∧ tableLookup demoDoc.sessions ['u'] = none
      ∧ (isAuthenticated (some (signCookie ['u'] demoSecret)) 0 demoFs).1 =
          Except.ok false)
  ∧ (verifyCookie (signCookie demoToken demoSecret) demoDoc.sessionSecret =
        some demoToken
      ∧ tableLookup demoDoc.sessions demoToken = some demoSession
      ∧ isSessionValid 604800000 (some demoSession) = false
      ∧ (isAuthenticated (some (signCookie demoToken demoSecret)) 604800000
          demoFs).1 = Except.ok false)
  ∧ (readData brokenFs = Except.error StorageError.ioFailure
      ∧ (handleResetCredentials (some demoToken) 0 WriteInj.success WriteInj.success
          brokenFs).1 ≠ Except.ok { status := 200, clearsCookie := true }) := by
  have hvx : verifyCookie ['x'] demoDoc.sessionSecret = none := by decide
  have hvu : verifyCookie (signCookie ['u'] demoSecret) demoDoc.sessionSecret =
      some ['u'] := verifyCookie_signCookie ['u'] demoSecret (by decide)
  have hvt : verifyCookie (signCookie demoToken demoSecret) demoDoc.sessionSecret =
      some demoToken := verifyCookie_signCookie demoToken demoSecret (by decide)
  have hcx : (['x'] : JsStr) ≠ [] := by decide
  have hcu : signCookie ['u'] demoSecret ≠ [] := by simp [signCookie]
  have hct : signCookie demoToken demoSecret ≠ [] := by
    simp [signCookie, demoToken]
  refine ⟨⟨⟨demoDoc, rfl⟩,
      (isAuthenticated_fail_closed_amended (some demoToken) 0 demoFs).1
        ⟨demoDoc, rfl⟩⟩, ?_, ⟨hvx, ?_⟩, ⟨hvu, by decide, ?_⟩,
      ⟨hvt, by decide, by decide, ?_⟩, ⟨rfl, ?_⟩⟩
  · exact ((isAuthenticated_fail_closed_amended none 0 demoFs).2.1
      demoDoc rfl).1 (Or.inl rfl)
  · exact (((isAuthenticated_fail_closed_amended (some ['x']) 0 demoFs).2.1
      demoDoc rfl).2 ['x'] rfl hcx).1 hvx
  · exact ((((isAuthenticated_fail_closed_amended
      (some (signCookie ['u'] demoSecret)) 0 demoFs).2.1
      demoDoc rfl).2 (signCookie ['u'] demoSecret) rfl hcu).2 ['u'] hvu).2.1
      (by decide)
  · exact ((((isAuthenticated_fail_closed_amended
      (some (signCookie demoToken demoSecret)) 604800000 demoFs).2.1
      demoDoc rfl).2 (signCookie demoToken demoSecret) rfl hct).2 demoToken
      hvt).2.2 demoSession (by decide) (by decide)
  · exact (isAuthenticated_fail_closed_amended (some demoToken) 0 brokenFs).2.2.2
      StorageError.ioFailure rfl WriteInj.success WriteInj.success

/-- C7: logging out an authenticated cookie removes its token from the session
table, and the same unchanged cookie is afterwards rejected by the gate at any
check time. -/
theorem logout_invalidates_session (fs : Fs) (d : Document) (c token : JsStr)
    (now now' : Nat)
    (hread : readData fs = Except.ok d)
    (hverify : verifyCookie c d.sessionSecret = some token)
    (hauth : (isAuthenticated (some c) now fs).1 = Except.ok true) :
    readData (handleLogout (some c) WriteInj.success fs).2 =
        Except.ok { d with sessions := tableDelete d.sessions token }
  ∧ tableLookup (tableDelete d.sessions token) token = none
  ∧ (isAuthenticated (some c) now' (handleLogout (some c) WriteInj.success fs).2).1 =
        Except.ok false := by
  have hc : c ≠ [] := by
    intro h0
    rw [h0] at hauth
    simp [isAuthenticated] at hauth
  have ht : token ≠ [] := by
    intro h0
    rw [isAuthenticated_eval_ok c now fs d hread hc] at hauth
    simp only [hverify, h0] at hauth
    simp at hauth
  have hlog : handleLogout (some c) WriteInj.success fs =
      ({ status := 200, clearsCookie := true },
       { dataFile := FileContent.whole { d with sessions := tableDelete d.sessions token },
         tempFile := FileContent.missing }) := by
    simp only [handleLogout, getSessionSecret, getSessions, saveSessions, writeData,
      hread, Except.map, if_neg hc, hverify, if_neg ht]
  refine ⟨?_, tableLookup_tableDelete_self d.sessions token, ?_⟩
  · rw [hlog]
    rfl
  · rw [hlog]
    rw [isAuthenticated_eval_ok c now'
      { dataFile := FileContent.whole { d with sessions := tableDelete d.sessions token },
        tempFile := FileContent.missing }
      { d with sessions := tableDelete d.sessions token } rfl hc]
    simp only [hverify, if_neg ht, tableLookup_tableDelete_self, isSessionValid]

/-- C7 witness: a concrete signed cookie authenticates against demoFs, and
after handleLogout the very same cookie is rejected. -/
theorem logout_invalidates_session_witness :
    (isAuthenticated (some (signCookie demoToken demoSecret)) 5 demoFs).1 =
        Except.ok true
  ∧ (isAuthenticated (some (signCookie demoToken demoSecret)) 6
        (handleLogout (some (signCookie demoToken demoSecret))
          WriteInj.success demoFs).2).1 = Except.ok false := by
  have hv : verifyCookie (signCookie demoToken demoSecret) demoDoc.sessionSecret
      = some demoToken := verifyCookie_signCookie demoToken demoSecret (by decide)
  have hc : signCookie demoToken demoSecret ≠ [] := by
    simp [signCookie, demoToken]
  have hauth : (isAuthenticated (some (signCookie demoToken demoSecret)) 5 demoFs).1 =
      Except.ok true := by
    rw [isAuthenticated_eval_ok (signCookie demoToken demoSecret) 5 demoFs demoDoc
      rfl hc]
    simp only [hv]
    simp [demoToken, demoDoc, demoSession, tableLookup, isSessionValid]
  exact ⟨hauth,
    (logout_invalidates_session demoFs demoDoc (signCookie demoToken demoSecret)
      demoToken 5 6 rfl hv hauth).2.2⟩

/-- C8: the signature comparison of verifyCookie is the short-circuit string
equality, not a constant-time compare: two forged signatures for the same
cookie — one wrong in its first hex digit, one wrong only in its last — are
both rejected, yet the comparison performs 1 versus 64 character comparisons,
so its cost grows with the length of the matching prefix. -/
theorem signature_compare_not_constant_time :
    verifyCookie ("tok123".toList ++ '.' :: sigForgedAtEnd) "secretA".toList = none
  ∧ verifyCookie ("tok123".toList ++ '.' :: sigForgedAtStart) "secretA".toList = none
  ∧ strEqCost sigForgedAtEnd expectedSigTok123 = 64
  ∧ strEqCost sigForgedAtStart expectedSigTok123 = 1 := by
  refine ⟨by decide, by decide, by decide, by decide⟩

end SimpleLinkz
